import Mathlib

/-
Shallow embedding of tcpdump's DCCP printer (src/tcpdump/print-dccp.c).

Modelling conventions:
  * A packet is a byte stream `buf : Nat → Nat` (bytes taken mod 256), a
    captured length `caplen` and the claimed transport-layer length `len`.
  * Every `GET_*` macro of the source becomes a bounds-checked read that
    fails with `Truncated` past the captured bytes (the source compiles with
    ND_LONGJMP_FROM_TCHECK, so an out-of-capture GET aborts the printer).
  * `ND_ICHECK*` length comparisons on the claimed length map to `Truncated`,
    the unknown packet type to `InvalidType`, option type/length rule
    violations to `InvalidOption`, exactly as the specification's error
    taxonomy names them.  The extra diagnostic text those macros print is
    not modelled; neither is the final invalid/truncation marker, which the
    framework appends as a pure function of the error kind.
  * Output is a token list; errors keep the output already emitted (the C
    printer prints as it goes and never rolls back).
  * External collaborators (address-to-name rendering, the Internet checksum
    over the pseudo-header, in_cksum_shouldbe) are parameters of `Env`:
    `cksum` receives the checksum coverage computed by `dccp_csum_coverage`
    and returns the residual sum (0 = verifies), standing for
    nextproto4_cksum/nextproto6_cksum.
-/

namespace Dccp

/-- Error kinds: insufficient declared or captured length, unknown packet
    type, unknown option or option-length rule violation. -/
inductive DccpErr where
  | Truncated
  | InvalidType
  | InvalidOption
  deriving DecidableEq

/-- Output tokens of the printer.  Fixed format text becomes `lit`, printed
    decimal values `dec`, hex-dump bytes (`%02x`) `hexByte`, the transmitted
    checksum (`0x%04x`) `hex4`, and the checksum verdict a dedicated
    `cksumAnn` token carrying the transmitted value, whether it verified,
    and the corrected value shown on mismatch (0 when it verified). -/
inductive OutTok where
  | lit (s : String)
  | dec (n : Nat)
  | hexByte (n : Nat)
  | hex4 (n : Nat)
  | cksumAnn (transmitted : Nat) (ok : Bool) (corrected : Nat)
  deriving DecidableEq

/-- Terminal states of one dccp_print call: the quiet early exit with its
    printed payload byte count, or the normal end of the decode. -/
inductive Outcome where
  | quiet (payload : Nat)
  | done
  deriving DecidableEq

/-- A captured packet: byte stream, captured byte count, claimed length. -/
structure Pkt where
  buf : Nat → Nat
  caplen : Nat
  len : Nat

def byteAt (p : Pkt) (i : Nat) : Nat := p.buf i % 256

/-- GET_U_1: one byte, checked against the captured length. -/
def get1 (p : Pkt) (i : Nat) : Except DccpErr Nat :=
  if i + 1 ≤ p.caplen then Except.ok (byteAt p i) else Except.error DccpErr.Truncated

/-- GET_BE_U_2. -/
def getBE2 (p : Pkt) (i : Nat) : Except DccpErr Nat :=
  if i + 2 ≤ p.caplen then Except.ok (byteAt p i * 256 + byteAt p (i + 1))
  else Except.error DccpErr.Truncated

/-- GET_BE_U_3. -/
def getBE3 (p : Pkt) (i : Nat) : Except DccpErr Nat :=
  if i + 3 ≤ p.caplen then
    Except.ok (byteAt p i * 65536 + byteAt p (i + 1) * 256 + byteAt p (i + 2))
  else Except.error DccpErr.Truncated

/-- GET_BE_U_4. -/
def getBE4 (p : Pkt) (i : Nat) : Except DccpErr Nat :=
  if i + 4 ≤ p.caplen then
    Except.ok (byteAt p i * 16777216 + byteAt p (i + 1) * 65536 +
      byteAt p (i + 2) * 256 + byteAt p (i + 3))
  else Except.error DccpErr.Truncated

/-- GET_BE_U_6. -/
def getBE6 (p : Pkt) (i : Nat) : Except DccpErr Nat :=
  if i + 6 ≤ p.caplen then
    Except.ok (byteAt p i * 1099511627776 + byteAt p (i + 1) * 4294967296 +
      byteAt p (i + 2) * 16777216 + byteAt p (i + 3) * 65536 +
      byteAt p (i + 4) * 256 + byteAt p (i + 5))
  else Except.error DccpErr.Truncated

/-- ND_TCHECK_LEN(dh, n): the first n bytes must be captured. -/
def tcheckLen (p : Pkt) (n : Nat) : Except DccpErr Unit :=
  if n ≤ p.caplen then Except.ok () else Except.error DccpErr.Truncated

/-- ND_TCHECK at an offset (ND_TCHECK_1, ND_TCHECK_SIZE of a struct at an
    offset): bytes [off, off+n) must be captured. -/
def tcheckAt (p : Pkt) (off n : Nat) : Except DccpErr Unit :=
  if off + n ≤ p.caplen then Except.ok () else Except.error DccpErr.Truncated

/-- Printer monad: tokens emitted so far together with success or error. -/
abbrev M (α : Type) : Type := List OutTok × Except DccpErr α

def mbind {α β : Type} (m : M α) (f : α → M β) : M β :=
  match m.2 with
  | Except.ok a => (m.1 ++ (f a).1, (f a).2)
  | Except.error e => (m.1, Except.error e)

def mpure {α : Type} (a : α) : M α := ([], Except.ok a)

def emit (t : OutTok) : M Unit := ([t], Except.ok ())

def emits (ts : List OutTok) : M Unit := (ts, Except.ok ())

def mthrow {α : Type} (e : DccpErr) : M α := ([], Except.error e)

def liftE {α : Type} (x : Except DccpErr α) : M α := ([], x)

/-- tok2str over an explicit (value, name) table: the name on a hit, else
    the printf fallback `pre ++ value ++ post`. -/
def tokFind : List (Nat × String) → Nat → Option String
  | [], _ => none
  | (k, s) :: rest, v => if k = v then some s else tokFind rest v

def tok2str (tbl : List (Nat × String)) (pre post : String) (v : Nat) : String :=
  match tokFind tbl v with
  | some s => s
  | none => pre ++ toString v ++ post

def dccp_pkt_type_str : List (Nat × String) :=
  [(0, "DCCP-Request"), (1, "DCCP-Response"), (2, "DCCP-Data"), (3, "DCCP-Ack"),
   (4, "DCCP-DataAck"), (5, "DCCP-CloseReq"), (6, "DCCP-Close"), (7, "DCCP-Reset"),
   (8, "DCCP-Sync"), (9, "DCCP-SyncAck")]

def dccp_reset_code_str : List (Nat × String) :=
  [(0, "unspecified"), (1, "closed"), (2, "aborted"), (3, "no_connection"),
   (4, "packet_error"), (5, "option_error"), (6, "mandatory_error"),
   (7, "connection_refused"), (8, "bad_service_code"), (9, "too_busy"),
   (10, "bad_init_cookie"), (11, "aggression_penalty")]

def dccp_feature_num_str : List (Nat × String) :=
  [(0, "reserved"), (1, "ccid"), (2, "allow_short_seqno"), (3, "sequence_window"),
   (4, "ecn_incapable"), (5, "ack_ratio"), (6, "send_ack_vector"),
   (7, "send_ndp_count"), (8, "minimum_checksum_coverage"), (9, "check_data_checksum")]

def dccp_option_values : List (Nat × String) :=
  [(0, "nop"), (1, "mandatory"), (2, "slowreceiver"), (32, "change_l"),
   (33, "confirm_l"), (34, "change_r"), (35, "confirm_r"), (36, "initcookie"),
   (37, "ndp_count"), (38, "ack_vector0"), (39, "ack_vector1"), (40, "data_dropped"),
   (41, "timestamp"), (42, "timestamp_echo"), (43, "elapsed_time"), (44, "data_checksum")]

/-- DCCPH_CCVAL: high nibble of header byte 5. -/
def DCCPH_CCVAL (b5 : Nat) : Nat := b5 / 16 % 16

/-- DCCPH_CSCOV: low nibble of header byte 5. -/
def DCCPH_CSCOV (b5 : Nat) : Nat := b5 % 16

/-- DCCPH_X: low bit of header byte 8. -/
def DCCPH_X (b8 : Nat) : Nat := b8 % 2

/-- DCCPH_TYPE: bits 1..4 of header byte 8. -/
def DCCPH_TYPE (b8 : Nat) : Nat := b8 / 2 % 16

/-- dccp_csum_coverage: full claimed length when cscov is 0, otherwise
    (doff + cscov - 1) * 4 clamped to the claimed length.  The caller reads
    cscov and doff from header bytes 5 and 4 before the call. -/
def dccp_csum_coverage (cscov doff len : Nat) : Nat :=
  if cscov = 0 then len
  else if (doff + cscov - 1) * 4 > len then len else (doff + cscov - 1) * 4

/-- dccp_basic_hdr_len: 16 bytes with a 48-bit sequence number, else 12. -/
def dccp_basic_hdr_len (xtr : Nat) : Nat := if DCCPH_X xtr = 1 then 16 else 12

/-- dccp_seqno: 48-bit sequence number at offset 10 when X is set, else the
    24-bit one at offset 9. -/
def dccp_seqno (p : Pkt) : Except DccpErr Nat :=
  match get1 p 8 with
  | Except.error e => Except.error e
  | Except.ok xtr => if DCCPH_X xtr = 1 then getBE6 p 10 else getBE3 p 9

/-- dccp_print_ack_no: the ack number sits after the generic header, 2 bytes
    of reserve then 48 bits when X is set, 1 byte of reserve then 24 bits
    otherwise. -/
def dccp_print_ack_no (p : Pkt) : M Unit :=
  mbind (liftE (get1 p 8)) (fun xtr =>
    mbind (liftE (if DCCPH_X xtr = 1 then getBE6 p (dccp_basic_hdr_len xtr + 2)
                  else getBE3 p (dccp_basic_hdr_len xtr + 1))) (fun ackno =>
      emits [OutTok.lit "(ack=", OutTok.dec ackno, OutTok.lit ") "]))

/-- One "%02x" hex-dump loop: n bytes starting at off. -/
def printHexBytes (p : Pkt) (off : Nat) : Nat → M Unit
  | 0 => mpure ()
  | Nat.succ n =>
    mbind (liftE (get1 p off)) (fun b =>
      mbind (emit (OutTok.hexByte b)) (fun _ => printHexBytes p (off + 1) n))

/-- One " %u" per-byte loop: n bytes starting at off. -/
def printDecBytes (p : Pkt) (off : Nat) : Nat → M Unit
  | 0 => mpure ()
  | Nat.succ n =>
    mbind (liftE (get1 p off)) (fun b =>
      mbind (emits [OutTok.lit " ", OutTok.dec b]) (fun _ => printDecBytes p (off + 1) n))

/-- Payload part of dccp_print_option: the big switch after the length and
    budget checks.  `bp` is the offset of the option's type byte. -/
def dccpOptPayload (p : Pkt) (bp optionType optlen : Nat) : M Unit :=
  if 128 ≤ optionType then
    if optlen = 4 then
      mbind (liftE (getBE2 p (bp + 2))) (fun v => emits [OutTok.lit " ", OutTok.dec v])
    else if optlen = 6 then
      mbind (liftE (getBE4 p (bp + 2))) (fun v => emits [OutTok.lit " ", OutTok.dec v])
    else
      mbind (emit (OutTok.lit " 0x")) (fun _ => printHexBytes p (bp + 2) (optlen - 2))
  else
    match optionType with
    | 0 => liftE (tcheckAt p bp 1)
    | 1 => liftE (tcheckAt p bp 1)
    | 2 => liftE (tcheckAt p bp 1)
    | 32 =>
      if optlen < 4 then mthrow DccpErr.InvalidOption
      else
        mbind (liftE (get1 p (bp + 2))) (fun f =>
          mbind (emits [OutTok.lit " ",
            OutTok.lit (tok2str dccp_feature_num_str "feature-number-" " (invalid)" f)])
            (fun _ => printDecBytes p (bp + 3) (optlen - 3)))
    | 34 =>
      if optlen < 4 then mthrow DccpErr.InvalidOption
      else
        mbind (liftE (get1 p (bp + 2))) (fun f =>
          mbind (emits [OutTok.lit " ",
            OutTok.lit (tok2str dccp_feature_num_str "feature-number-" " (invalid)" f)])
            (fun _ => printDecBytes p (bp + 3) (optlen - 3)))
    | 33 =>
      if optlen < 3 then mthrow DccpErr.InvalidOption
      else
        mbind (liftE (get1 p (bp + 2))) (fun f =>
          mbind (emits [OutTok.lit " ",
            OutTok.lit (tok2str dccp_feature_num_str "feature-number-" " (invalid)" f)])
            (fun _ => printDecBytes p (bp + 3) (optlen - 3)))
    | 35 =>
      if optlen < 3 then mthrow DccpErr.InvalidOption
      else
        mbind (liftE (get1 p (bp + 2))) (fun f =>
          mbind (emits [OutTok.lit " ",
            OutTok.lit (tok2str dccp_feature_num_str "feature-number-" " (invalid)" f)])
            (fun _ => printDecBytes p (bp + 3) (optlen - 3)))
    | 36 =>
      if optlen < 3 then mthrow DccpErr.InvalidOption
      else mbind (emit (OutTok.lit " 0x")) (fun _ => printHexBytes p (bp + 2) (optlen - 2))
    | 37 =>
      if optlen < 3 then mthrow DccpErr.InvalidOption
      else if 8 < optlen then mthrow DccpErr.InvalidOption
      else printDecBytes p (bp + 2) (optlen - 2)
    | 38 =>
      if optlen < 3 then mthrow DccpErr.InvalidOption
      else mbind (emit (OutTok.lit " 0x")) (fun _ => printHexBytes p (bp + 2) (optlen - 2))
    | 39 =>
      if optlen < 3 then mthrow DccpErr.InvalidOption
      else mbind (emit (OutTok.lit " 0x")) (fun _ => printHexBytes p (bp + 2) (optlen - 2))
    | 40 =>
      if optlen < 3 then mthrow DccpErr.InvalidOption
      else mbind (emit (OutTok.lit " 0x")) (fun _ => printHexBytes p (bp + 2) (optlen - 2))
    | 41 =>
      if optlen ≠ 6 then mthrow DccpErr.InvalidOption
      else mbind (liftE (getBE4 p (bp + 2))) (fun v => emits [OutTok.lit " ", OutTok.dec v])
    | 42 =>
      if optlen = 6 then
        mbind (liftE (getBE4 p (bp + 2))) (fun v => emits [OutTok.lit " ", OutTok.dec v])
      else if optlen = 8 then
        mbind (liftE (getBE4 p (bp + 2))) (fun v =>
          mbind (emits [OutTok.lit " ", OutTok.dec v]) (fun _ =>
            mbind (liftE (getBE2 p (bp + 6))) (fun e =>
              emits [OutTok.lit " (elapsed time ", OutTok.dec e, OutTok.lit ")"])))
      else if optlen = 10 then
        mbind (liftE (getBE4 p (bp + 2))) (fun v =>
          mbind (emits [OutTok.lit " ", OutTok.dec v]) (fun _ =>
            mbind (liftE (getBE4 p (bp + 6))) (fun e =>
              emits [OutTok.lit " (elapsed time ", OutTok.dec e, OutTok.lit ")"])))
      else mthrow DccpErr.InvalidOption
    | 43 =>
      if optlen = 4 then
        mbind (liftE (getBE2 p (bp + 2))) (fun v => emits [OutTok.lit " ", OutTok.dec v])
      else if optlen = 6 then
        mbind (liftE (getBE4 p (bp + 2))) (fun v => emits [OutTok.lit " ", OutTok.dec v])
      else mthrow DccpErr.InvalidOption
    | 44 =>
      if optlen ≠ 6 then mthrow DccpErr.InvalidOption
      else mbind (emit (OutTok.lit " 0x")) (fun _ => printHexBytes p (bp + 2) (optlen - 2))
    | _ => mthrow DccpErr.InvalidOption

/-- dccp_print_option: print the option name, read the length byte for
    types >= 32 (rejecting lengths below 2), check the remaining budget
    `hlen`, print the payload, and return the bytes consumed. -/
def dccp_print_option (p : Pkt) (bp hlen : Nat) : M Nat :=
  mbind (liftE (get1 p bp)) (fun optionType =>
    mbind (if 128 ≤ optionType then
             emits [OutTok.lit "CCID option ", OutTok.dec optionType]
           else
             emit (OutTok.lit (tok2str dccp_option_values "option-type-" "" optionType)))
      (fun _ =>
        mbind (if 32 ≤ optionType then
                 mbind (liftE (get1 p (bp + 1))) (fun l =>
                   if l < 2 then mthrow DccpErr.InvalidOption else mpure l)
               else mpure 1)
          (fun optlen =>
            if hlen < optlen then mthrow DccpErr.Truncated
            else mbind (dccpOptPayload p bp optionType optlen) (fun _ => mpure optlen))))

/-- The options while(1) loop of dccp_print, with the budget `hlen` bounding
    the iteration count: fuel starts at hlen + 1 and every successful option
    consumes at least one budget byte (dccp_print_option_ok_spec below), so
    the fuel-exhaustion branch is unreachable from `optionsLoop`.  The list
    collects the successive return values of dccp_print_option (the
    bytes_consumed of each decoded option). -/
def optionsLoopAux (p : Pkt) : Nat → Nat → Nat → M (List Nat)
  | 0, _, _ => ([], Except.error DccpErr.Truncated)
  | Nat.succ fuel, cp, hlen =>
    match (dccp_print_option p cp hlen).2 with
    | Except.error e => ((dccp_print_option p cp hlen).1, Except.error e)
    | Except.ok optlen =>
      if hlen ≤ optlen then ((dccp_print_option p cp hlen).1, Except.ok [optlen])
      else
        ((dccp_print_option p cp hlen).1 ++ OutTok.lit ", " ::
            (optionsLoopAux p fuel (cp + optlen) (hlen - optlen)).1,
         Except.map (fun rest => optlen :: rest)
           (optionsLoopAux p fuel (cp + optlen) (hlen - optlen)).2)

def optionsLoop (p : Pkt) (cp hlen : Nat) : M (List Nat) :=
  optionsLoopAux p (hlen + 1) cp hlen

/-- Lines 406-424 of dccp_print: the option area is entered only when the
    header length hlen (doff * 4) strictly exceeds the fixed header length;
    the loop then runs on the remaining budget hlen - fixed. -/
def optionsSection (p : Pkt) (fixed hlen : Nat) : M Unit :=
  if fixed < hlen then
    mbind (emit (OutTok.lit " <")) (fun _ =>
      mbind (optionsLoop p fixed (hlen - fixed)) (fun _ => emit (OutTok.lit ">")))
  else mpure ()

/-- The per-type switch of dccp_print (lines 338-395): adds the type
    extension's size to the fixed header length, checks the claimed length,
    prints the type-specific fields, and returns the new fixed header
    length.  `fixed0` is the generic header's length (12 or 16). -/
def dccpTypeExt (p : Pkt) (ptype fixed0 : Nat) : M Nat :=
  match ptype with
  | 0 =>
    if p.len < fixed0 + 4 then mthrow DccpErr.Truncated
    else
      mbind (liftE (getBE4 p fixed0)) (fun svc =>
        mbind (emits [OutTok.lit "(service=", OutTok.dec svc, OutTok.lit ") "])
          (fun _ => mpure (fixed0 + 4)))
  | 1 =>
    if p.len < fixed0 + 12 then mthrow DccpErr.Truncated
    else
      mbind (liftE (getBE4 p (fixed0 + 8))) (fun svc =>
        mbind (emits [OutTok.lit "(service=", OutTok.dec svc, OutTok.lit ") "])
          (fun _ => mpure (fixed0 + 12)))
  | 2 => mpure fixed0
  | 3 => if p.len < fixed0 + 8 then mthrow DccpErr.Truncated else mpure (fixed0 + 8)
  | 4 => if p.len < fixed0 + 8 then mthrow DccpErr.Truncated else mpure (fixed0 + 8)
  | 5 => if p.len < fixed0 + 8 then mthrow DccpErr.Truncated else mpure (fixed0 + 8)
  | 6 => if p.len < fixed0 + 8 then mthrow DccpErr.Truncated else mpure (fixed0 + 8)
  | 7 =>
    if p.len < fixed0 + 12 then mthrow DccpErr.Truncated
    else
      mbind (liftE (tcheckAt p fixed0 12)) (fun _ =>
        mbind (liftE (get1 p (fixed0 + 8))) (fun code =>
          mbind (emits [OutTok.lit "(code=",
            OutTok.lit (tok2str dccp_reset_code_str "reset-code-" " (invalid)" code),
            OutTok.lit ") "]) (fun _ => mpure (fixed0 + 12))))
  | 8 => if p.len < fixed0 + 8 then mthrow DccpErr.Truncated else mpure (fixed0 + 8)
  | 9 => if p.len < fixed0 + 8 then mthrow DccpErr.Truncated else mpure (fixed0 + 8)
  | _ => mthrow DccpErr.InvalidType

/-- The verbose block of dccp_print (lines 315-333): CCVal/CsCov, then, only
    when the whole claimed length is captured (ND_TTEST_LEN), the transmitted
    checksum and its verdict.  `ck` abstracts nextproto4_cksum or
    nextproto6_cksum applied to the coverage from dccp_csum_coverage; `sb`
    abstracts in_cksum_shouldbe. -/
def verboseCkSum (ck : Nat → Nat) (sb : Nat → Nat → Nat) (p : Pkt) (b5 : Nat) : M Unit :=
  if p.len ≤ p.caplen then
    mbind (liftE (getBE2 p 6)) (fun dccpSum =>
      mbind (emits [OutTok.lit ", cksum ", OutTok.hex4 dccpSum, OutTok.lit " "])
        (fun _ =>
          mbind (liftE (get1 p 4)) (fun doff =>
            if ck (dccp_csum_coverage (DCCPH_CSCOV b5) doff p.len) ≠ 0 then
              emit (OutTok.cksumAnn dccpSum false
                (sb dccpSum (ck (dccp_csum_coverage (DCCPH_CSCOV b5) doff p.len))))
            else emit (OutTok.cksumAnn dccpSum true 0))))
  else mpure ()

def verboseCk (ck : Nat → Nat) (sb : Nat → Nat → Nat) (p : Pkt) : M Unit :=
  mbind (liftE (get1 p 5)) (fun b5 =>
    mbind (emits [OutTok.lit " (CCVal ", OutTok.dec (DCCPH_CCVAL b5),
                  OutTok.lit ", CsCov ", OutTok.dec (DCCPH_CSCOV b5)]) (fun _ =>
      mbind (verboseCkSum ck sb p b5) (fun _ =>
        emit (OutTok.lit ")"))))

/-- The remainder of dccp_print after the quiet/verbose prelude (lines
    335-425): packet type name, type extension, ack number (for all types
    but Data and Request), then with verbosity at least 2 the sequence
    number and the option area. -/
def dccpRest (vflag : Nat) (p : Pkt) (fixed0 hlen : Nat) : M Outcome :=
  mbind (liftE (get1 p 8)) (fun xtr =>
    mbind (emit (OutTok.lit
      (" " ++ tok2str dccp_pkt_type_str "packet-type-" "" (DCCPH_TYPE xtr) ++ " ")))
      (fun _ =>
        mbind (dccpTypeExt p (DCCPH_TYPE xtr) fixed0) (fun fixed =>
          mbind (if DCCPH_TYPE xtr ≠ 2 ∧ DCCPH_TYPE xtr ≠ 0 then dccp_print_ack_no p
                 else mpure ()) (fun _ =>
            if vflag < 2 then mpure Outcome.done
            else
              mbind (liftE (dccp_seqno p)) (fun seqno =>
                mbind (emits [OutTok.lit "seq ", OutTok.dec seqno]) (fun _ =>
                  mbind (optionsSection p fixed hlen) (fun _ => mpure Outcome.done)))))))

/-- Configuration and external collaborators: the quiet flag, the verbosity
    level, the rendered source and destination addresses (addrtoname), the
    checksum primitive (coverage to residual sum, 0 meaning it verifies)
    and in_cksum_shouldbe. -/
structure Env where
  qflag : Bool
  vflag : Nat
  srcAddr : String
  dstAddr : String
  cksum : Nat → Nat
  shouldbe : Nat → Nat → Nat

/-- "%s.%u > %s.%u: " address prefix. -/
def emitAddrs (srcA dstA : String) (sport dport : Nat) : M Unit :=
  emits [OutTok.lit srcA, OutTok.lit ".", OutTok.dec sport, OutTok.lit " > ",
         OutTok.lit dstA, OutTok.lit ".", OutTok.dec dport, OutTok.lit ": "]

/-- dccp_print (lines 262-428): the minimum-size check on the claimed
    length, the generic header (12 or 16 bytes by the X bit), the address
    prefix and protocol name, the quiet early exit, the verbose checksum
    block, and the rest of the decode. -/
def dccpPrintCore (env : Env) (p : Pkt) : M Outcome :=
  if p.len < 12 then mthrow DccpErr.Truncated
  else
    mbind (liftE (get1 p 8)) (fun xtr =>
      if p.len < dccp_basic_hdr_len xtr then mthrow DccpErr.Truncated
      else
        mbind (liftE (tcheckLen p (dccp_basic_hdr_len xtr))) (fun _ =>
          mbind (liftE (getBE2 p 0)) (fun sport =>
            mbind (liftE (getBE2 p 2)) (fun dport =>
              mbind (liftE (get1 p 4)) (fun doff =>
                mbind (emitAddrs env.srcAddr env.dstAddr sport dport) (fun _ =>
                  mbind (emit (OutTok.lit "DCCP")) (fun _ =>
                    if env.qflag then
                      if p.len < doff * 4 then mthrow DccpErr.Truncated
                      else
                        mbind (emits [OutTok.lit " ", OutTok.dec (p.len - doff * 4)])
                          (fun _ => mpure (Outcome.quiet (p.len - doff * 4)))
                    else
                      mbind (if 1 ≤ env.vflag then verboseCk env.cksum env.shouldbe p
                             else mpure ()) (fun _ =>
                        dccpRest env.vflag p (dccp_basic_hdr_len xtr) (doff * 4)))))))))

/- ---------------------------------------------------------------- -/
/- Helper lemmas                                                     -/
/- ---------------------------------------------------------------- -/

lemma byteAt_lt (p : Pkt) (i : Nat) : byteAt p i < 256 :=
  Nat.mod_lt _ (by omega)

lemma getBE4_ok_lt {p : Pkt} {i v : Nat} (h : getBE4 p i = Except.ok v) :
    v < 4294967296 := by
  unfold getBE4 at h
  split at h
  · have h0 := byteAt_lt p i
    have h1 := byteAt_lt p (i + 1)
    have h2 := byteAt_lt p (i + 2)
    have h3 := byteAt_lt p (i + 3)
    simp only [Except.ok.injEq] at h
    omega
  · exact absurd h (by simp)

/-- Every successful dccp_print_option call returns at least one consumed
    byte, at most the remaining budget, exactly 1 for option types below 32
    and at least 2 otherwise. -/
lemma dccp_print_option_ok_spec {p : Pkt} {bp hlen n : Nat}
    (h : (dccp_print_option p bp hlen).2 = Except.ok n) :
    1 ≤ n ∧ n ≤ hlen ∧
      ∀ t, get1 p bp = Except.ok t → (t < 32 → n = 1) ∧ (32 ≤ t → 2 ≤ n) := by
  unfold dccp_print_option at h
  cases hg : get1 p bp with
  | error e => simp [mbind, liftE, hg] at h
  | ok t =>
    simp only [mbind, liftE, hg] at h
    by_cases h128 : 128 ≤ t
    · have h32 : 32 ≤ t := by omega
      simp only [if_pos h128, if_pos h32, emits, mbind, liftE] at h
      cases hg2 : get1 p (bp + 1) with
      | error e => simp [hg2] at h
      | ok l =>
        simp only [hg2] at h
        by_cases hl2 : l < 2
        · simp [if_pos hl2, mthrow] at h
        · simp only [if_neg hl2, mpure] at h
          by_cases hb : hlen < l
          · simp [if_pos hb, mthrow] at h
          · simp only [if_neg hb] at h
            cases hp : (dccpOptPayload p bp t l).2 with
            | error e => simp [hp] at h
            | ok u =>
              simp only [hp, mpure] at h
              cases h
              refine ⟨by omega, by omega, ?_⟩
              intro t2 ht2
              cases ht2
              exact ⟨fun hlt => by omega, fun _ => by omega⟩
    · simp only [if_neg h128, emit, mbind, liftE] at h
      by_cases h32 : 32 ≤ t
      · simp only [if_pos h32, mbind, liftE] at h
        cases hg2 : get1 p (bp + 1) with
        | error e => simp [hg2] at h
        | ok l =>
          simp only [hg2] at h
          by_cases hl2 : l < 2
          · simp [if_pos hl2, mthrow] at h
          · simp only [if_neg hl2, mpure] at h
            by_cases hb : hlen < l
            · simp [if_pos hb, mthrow] at h
            · simp only [if_neg hb] at h
              cases hp : (dccpOptPayload p bp t l).2 with
              | error e => simp [hp] at h
              | ok u =>
                simp only [hp, mpure] at h
                cases h
                refine ⟨by omega, by omega, ?_⟩
                intro t2 ht2
                cases ht2
                exact ⟨fun hlt => by omega, fun _ => by omega⟩
      · simp only [if_neg h32, mpure] at h
        split at h
        · simp [mthrow] at h
        · rename_i hb
          cases hp : (dccpOptPayload p bp t 1).2 with
          | error e => simp [hp] at h
          | ok u =>
            simp only [hp, mpure] at h
            cases h
            refine ⟨by omega, by omega, ?_⟩
            intro t2 ht2
            cases ht2
            exact ⟨fun _ => rfl, fun h32b => by omega⟩

/-- On success the options loop's consumed-bytes list sums to exactly the
    initial budget, and (each option consuming at least one byte) the number
    of decoded options never exceeds the budget. -/
lemma optionsLoopAux_ok (fuel : Nat) : ∀ (p : Pkt) (cp hlen : Nat) (l : List Nat),
    hlen < fuel → (optionsLoopAux p fuel cp hlen).2 = Except.ok l →
    l.sum = hlen ∧ l.length ≤ hlen := by
  induction fuel with
  | zero => intro p cp hlen l hf h; omega
  | succ fuel ih =>
    intro p cp hlen l hf h
    unfold optionsLoopAux at h
    split at h
    · simp at h
    · rename_i optlen hd
      obtain ⟨h1, h2, -⟩ := dccp_print_option_ok_spec hd
      split at h
      · rename_i hle
        simp only [Except.ok.injEq] at h
        subst h
        constructor
        · simp
          omega
        · simp
          omega
      · rename_i hle
        simp only at h
        cases hr : (optionsLoopAux p fuel (cp + optlen) (hlen - optlen)).2 with
        | error e => rw [hr] at h; simp [Except.map] at h
        | ok rest =>
          rw [hr] at h
          simp only [Except.map, Except.ok.injEq] at h
          subst h
          obtain ⟨hs, hl⟩ := ih p (cp + optlen) (hlen - optlen) rest (by omega) hr
          constructor
          · simp only [List.sum_cons]
            omega
          · simp only [List.length_cons]
            omega

lemma optionsLoop_ok {p : Pkt} {cp hlen : Nat} {l : List Nat}
    (h : (optionsLoop p cp hlen).2 = Except.ok l) :
    l.sum = hlen ∧ l.length ≤ hlen :=
  optionsLoopAux_ok (hlen + 1) p cp hlen l (by omega) h

/-- An option whose parsed length byte exceeds the remaining budget makes
    dccp_print_option fail with Truncated (the "remaining length" ICHECK). -/
lemma dccp_print_option_budget_trunc {p : Pkt} {bp hlen t l : Nat}
    (ht : get1 p bp = Except.ok t) (h32 : 32 ≤ t)
    (hl : get1 p (bp + 1) = Except.ok l) (h2 : 2 ≤ l) (hb : hlen < l) :
    (dccp_print_option p bp hlen).2 = Except.error DccpErr.Truncated := by
  unfold dccp_print_option
  by_cases h128 : 128 ≤ t <;>
    simp [mbind, liftE, ht, hl, emit, emits, mpure, mthrow, h32, h128,
      Nat.not_lt.mpr h2, hb]

/-- The same condition aborts the whole options loop with Truncated. -/
lemma optionsLoop_budget_trunc {p : Pkt} {cp hlen t l : Nat}
    (ht : get1 p cp = Except.ok t) (h32 : 32 ≤ t)
    (hl : get1 p (cp + 1) = Except.ok l) (h2 : 2 ≤ l) (hb : hlen < l) :
    (optionsLoop p cp hlen).2 = Except.error DccpErr.Truncated := by
  have hopt := dccp_print_option_budget_trunc ht h32 hl h2 hb
  unfold optionsLoop optionsLoopAux
  simp [hopt]

/-- A packet from an explicit byte list (bytes past the list read as 0). -/
def mkPkt (bytes : List Nat) (caplen len : Nat) : Pkt :=
  ⟨fun i => bytes.getD i 0, caplen, len⟩

/-- A plain environment: not quiet, not verbose, fixed addresses, checksum
    oracle that always verifies. -/
def envW : Env := ⟨false, 0, "10.0.0.1", "10.0.0.2", fun _ => 0, fun _ _ => 0⟩

/- ---------------------------------------------------------------- -/
/- Claims                                                            -/
/- ---------------------------------------------------------------- -/

/-- C1: the checksum coverage handed to the external checksum primitive
    equals the claimed length when cscov = 0, and
    min(claimed_length, (data_offset + cscov - 1) * 4) when cscov > 0. -/
theorem C1_checksum_coverage (cscov doff len : Nat) :
    (cscov = 0 → dccp_csum_coverage cscov doff len = len) ∧
    (0 < cscov → dccp_csum_coverage cscov doff len = min len ((doff + cscov - 1) * 4)) := by
  constructor
  · intro h
    simp [dccp_csum_coverage, h]
  · intro h
    unfold dccp_csum_coverage
    rw [if_neg (by omega), Nat.min_def]
    split_ifs <;> omega

theorem C1_checksum_coverage_witness :
    dccp_csum_coverage 0 5 100 = 100 ∧ dccp_csum_coverage 3 5 100 = min 100 28 :=
  ⟨(C1_checksum_coverage 0 5 100).1 rfl,
   (C1_checksum_coverage 3 5 100).2 (by decide)⟩

/-- C2: on a well-formed options area the loop succeeds and the sum of
    bytes_consumed over the decoded options equals the initial remaining
    budget; an option whose option_length exceeds the remaining budget at
    its start aborts the loop with Truncated. -/
theorem C2_options_budget :
    (∀ (p : Pkt) (cp hlen : Nat) (l : List Nat),
        (optionsLoop p cp hlen).2 = Except.ok l → l.sum = hlen) ∧
    (∀ (p : Pkt) (cp hlen t l : Nat),
        get1 p cp = Except.ok t → 32 ≤ t → get1 p (cp + 1) = Except.ok l →
        2 ≤ l → hlen < l →
        (optionsLoop p cp hlen).2 = Except.error DccpErr.Truncated) :=
  ⟨fun _ _ _ _ h => (optionsLoop_ok h).1,
   fun _ _ _ _ _ ht h32 hl h2 hb => optionsLoop_budget_trunc ht h32 hl h2 hb⟩

theorem C2_options_budget_witness :
    ([1, 6] : List Nat).sum = 7 ∧
    (optionsLoop (mkPkt [41, 6] 2 3) 0 3).2 = Except.error DccpErr.Truncated :=
  ⟨C2_options_budget.1 (mkPkt [0, 41, 6, 1, 2, 3, 4] 7 7) 0 7 [1, 6] rfl,
   C2_options_budget.2 (mkPkt [41, 6] 2 3) 0 3 41 6 rfl (by decide) rfl (by decide)
     (by decide)⟩

/-- C3: a claimed length below 12 fails with Truncated before any header
    field is read: nothing is printed, the result is the Truncated error,
    and the result is identical for any other buffer and capture length
    with the same claimed length. -/
theorem C3_min_length (env : Env) (p q : Pkt) (h : p.len < 12) (hq : q.len = p.len) :
    dccpPrintCore env p = ([], Except.error DccpErr.Truncated) ∧
    dccpPrintCore env p = dccpPrintCore env q := by
  constructor
  · unfold dccpPrintCore
    rw [if_pos h]
    rfl
  · unfold dccpPrintCore
    rw [if_pos h, if_pos (by omega)]

theorem C3_min_length_witness :
    dccpPrintCore envW (mkPkt [1, 2, 3] 3 11) = ([], Except.error DccpErr.Truncated) ∧
    dccpPrintCore envW (mkPkt [1, 2, 3] 3 11) = dccpPrintCore envW (mkPkt [9] 1 11) :=
  C3_min_length envW (mkPkt [1, 2, 3] 3 11) (mkPkt [9] 1 11) (by decide) (by decide)

/-- C7: when the header length doff * 4 is below the fixed header length the
    option area is simply skipped: no error is raised, nothing is printed,
    the packet is rendered as having no options. -/
theorem C7_short_data_offset (p : Pkt) (fixed hlen : Nat) (h : hlen < fixed) :
    optionsSection p fixed hlen = ([], Except.ok ()) := by
  unfold optionsSection
  rw [if_neg (by omega)]
  rfl

theorem C7_short_data_offset_witness :
    optionsSection (mkPkt [] 0 0) 16 12 = ([], Except.ok ()) :=
  C7_short_data_offset (mkPkt [] 0 0) 16 12 (by decide)

/-- C8: a successful dccp_print_option consumes at least 1 byte (exactly 1
    for option types below 32, at least 2 otherwise, since a length byte
    below 2 is rejected), so each loop iteration strictly shrinks the
    budget and the number of loop iterations is bounded by the budget. -/
theorem C8_option_progress :
    (∀ (p : Pkt) (bp hlen n : Nat),
        (dccp_print_option p bp hlen).2 = Except.ok n → 1 ≤ n) ∧
    (∀ (p : Pkt) (bp hlen n t : Nat),
        (dccp_print_option p bp hlen).2 = Except.ok n →
        get1 p bp = Except.ok t → t < 32 → n = 1) ∧
    (∀ (p : Pkt) (bp hlen n t : Nat),
        (dccp_print_option p bp hlen).2 = Except.ok n →
        get1 p bp = Except.ok t → 32 ≤ t → 2 ≤ n) ∧
    (∀ (p : Pkt) (cp hlen : Nat) (l : List Nat),
        (optionsLoop p cp hlen).2 = Except.ok l → l.length ≤ hlen) :=
  ⟨fun _ _ _ _ h => (dccp_print_option_ok_spec h).1,
   fun _ _ _ _ t h ht hlt => ((dccp_print_option_ok_spec h).2.2 t ht).1 hlt,
   fun _ _ _ _ t h ht hge => ((dccp_print_option_ok_spec h).2.2 t ht).2 hge,
   fun _ _ _ _ h => (optionsLoop_ok h).2⟩

theorem C8_option_progress_witness :
    (1 : Nat) ≤ 1 ∧ (1 : Nat) = 1 ∧ (2 : Nat) ≤ 6 ∧ ([1, 6] : List Nat).length ≤ 7 :=
  ⟨C8_option_progress.1 (mkPkt [0] 1 1) 0 5 1 rfl,
   C8_option_progress.2.1 (mkPkt [0] 1 1) 0 5 1 0 rfl rfl (by decide),
   C8_option_progress.2.2.1 (mkPkt [41, 6, 1, 2, 3, 4] 6 6) 0 6 6 41 rfl rfl (by decide),
   C8_option_progress.2.2.2 (mkPkt [0, 41, 6, 1, 2, 3, 4] 7 7) 0 7 [1, 6] rfl⟩

/-- The hex-dump loop either succeeds or stops on a capture shortfall. -/
lemma printHexBytes_snd (p : Pkt) : ∀ (n off : Nat),
    (printHexBytes p off n).2 = Except.ok () ∨
    (printHexBytes p off n).2 = Except.error DccpErr.Truncated := by
  intro n
  induction n with
  | zero => intro off; left; rfl
  | succ n ih =>
    intro off
    unfold printHexBytes get1
    by_cases hc : off + 1 ≤ p.caplen
    · rcases ih (off + 1) with h | h <;> [left; right] <;>
        simpa [if_pos hc, mbind, liftE, emit] using h
    · right
      simp [if_neg hc, mbind, liftE]

/-- A vendor (type >= 128) option payload never raises InvalidOption: it
    either prints and succeeds or stops on a capture shortfall. -/
lemma dccpOptPayload_vendor_snd (p : Pkt) (bp t l : Nat) (h128 : 128 ≤ t) :
    (dccpOptPayload p bp t l).2 = Except.ok () ∨
    (dccpOptPayload p bp t l).2 = Except.error DccpErr.Truncated := by
  unfold dccpOptPayload
  rw [if_pos h128]
  by_cases h4 : l = 4
  · simp only [if_pos h4]
    unfold getBE2
    split <;> simp [mbind, liftE, emits]
  · rw [if_neg h4]
    by_cases h6 : l = 6
    · simp only [if_pos h6]
      unfold getBE4
      split <;> simp [mbind, liftE, emits]
    · rw [if_neg h6]
      rcases printHexBytes_snd p (l - 2) (bp + 2) with h | h <;>
        [left; right] <;> simp [mbind, emit, h]

/-- C4: a Timestamp option (type 41) is rejected as InvalidOption for every
    option_length other than exactly 6 (given enough remaining budget), and
    for length 6 it succeeds, consuming 6 bytes and printing its payload as
    one 32-bit value. -/
theorem C4_timestamp_length (p : Pkt) (bp hlen l : Nat)
    (h41 : get1 p bp = Except.ok 41)
    (hl : get1 p (bp + 1) = Except.ok l)
    (hb : l ≤ hlen) :
    (l ≠ 6 → (dccp_print_option p bp hlen).2 = Except.error DccpErr.InvalidOption) ∧
    (∀ v, l = 6 → getBE4 p (bp + 2) = Except.ok v →
      dccp_print_option p bp hlen =
        ([OutTok.lit "timestamp", OutTok.lit " ", OutTok.dec v], Except.ok 6) ∧
      v < 4294967296) := by
  constructor
  · intro hne
    by_cases hl2 : l < 2
    · simp [dccp_print_option, mbind, liftE, h41, hl, emit, emits, mpure, mthrow, hl2]
    · simp [dccp_print_option, dccpOptPayload, mbind, liftE, h41, hl, emit, emits,
        mpure, mthrow, hl2, Nat.not_lt.mpr hb, hne]
  · intro v hl6 hv
    subst hl6
    refine ⟨?_, getBE4_ok_lt hv⟩
    simp [dccp_print_option, dccpOptPayload, mbind, liftE, h41, hl, emit, emits,
      mpure, mthrow, Nat.not_lt.mpr hb, hv, tok2str, tokFind, dccp_option_values]

theorem C4_timestamp_length_witness :
    ((5 : Nat) ≠ 6 ∧
      (dccp_print_option (mkPkt [41, 5, 0, 0, 0] 5 5) 0 5).2 =
        Except.error DccpErr.InvalidOption) ∧
    ((7 : Nat) ≠ 6 ∧
      (dccp_print_option (mkPkt [41, 7, 0, 0, 0, 0, 0] 7 7) 0 7).2 =
        Except.error DccpErr.InvalidOption) ∧
    (dccp_print_option (mkPkt [41, 6, 1, 2, 3, 4] 6 6) 0 6 =
        ([OutTok.lit "timestamp", OutTok.lit " ", OutTok.dec 16909060], Except.ok 6) ∧
      (16909060 : Nat) < 4294967296) :=
  ⟨⟨by decide,
    (C4_timestamp_length (mkPkt [41, 5, 0, 0, 0] 5 5) 0 5 5 rfl rfl (by decide)).1
      (by decide)⟩,
   ⟨by decide,
    (C4_timestamp_length (mkPkt [41, 7, 0, 0, 0, 0, 0] 7 7) 0 7 7 rfl rfl (by decide)).1
      (by decide)⟩,
   (C4_timestamp_length (mkPkt [41, 6, 1, 2, 3, 4] 6 6) 0 6 6 rfl rfl (by decide)).2
     16909060 rfl rfl⟩

/-- C9: a vendor/CCID option (type >= 128) of length exactly 2 succeeds,
    consumes 2 bytes and renders the empty hex payload (the literal " 0x"
    with zero hex digits); and no vendor option with a length byte >= 2 is
    ever rejected as InvalidOption. -/
theorem C9_vendor_options (p : Pkt) (bp hlen t l : Nat)
    (ht : get1 p bp = Except.ok t) (h128 : 128 ≤ t)
    (hl : get1 p (bp + 1) = Except.ok l) (h2 : 2 ≤ l) :
    (l = 2 → 2 ≤ hlen →
      dccp_print_option p bp hlen =
        ([OutTok.lit "CCID option ", OutTok.dec t, OutTok.lit " 0x"], Except.ok 2)) ∧
    (dccp_print_option p bp hlen).2 ≠ Except.error DccpErr.InvalidOption := by
  have h32 : 32 ≤ t := by omega
  constructor
  · intro hl2 hbud
    subst hl2
    simp [dccp_print_option, dccpOptPayload, printHexBytes, mbind, liftE, ht, hl,
      emit, emits, mpure, mthrow, h128, h32, Nat.not_lt.mpr hbud]
  · by_cases hbud : hlen < l
    · have hres := dccp_print_option_budget_trunc ht h32 hl h2 hbud
      rw [hres]
      simp
    · have hres : (dccp_print_option p bp hlen).2 = Except.ok l ∨
          (dccp_print_option p bp hlen).2 = Except.error DccpErr.Truncated := by
        rcases dccpOptPayload_vendor_snd p bp t l h128 with h | h <;>
          [left; right] <;>
          simp [dccp_print_option, mbind, liftE, ht, hl, emit, emits, mpure, mthrow,
            h128, h32, Nat.not_lt.mpr h2, hbud, h]
      rcases hres with h | h <;> rw [h] <;> simp

theorem C9_vendor_options_witness :
    (dccp_print_option (mkPkt [200, 2] 2 2) 0 2 =
        ([OutTok.lit "CCID option ", OutTok.dec 200, OutTok.lit " 0x"], Except.ok 2)) ∧
    (dccp_print_option (mkPkt [200, 3, 7] 3 3) 0 3).2 ≠
        Except.error DccpErr.InvalidOption :=
  ⟨(C9_vendor_options (mkPkt [200, 2] 2 2) 0 2 200 2 rfl (by decide) rfl (by decide)).1
      rfl (by decide),
   (C9_vendor_options (mkPkt [200, 3, 7] 3 3) 0 3 200 3 rfl (by decide) rfl (by decide)).2⟩

/-- Reset codes 12 and above miss the table and fall back to the printf
    format "reset-code-%u (invalid)". -/
lemma reset_code_fallback (code : Nat) (h : 12 ≤ code) :
    tok2str dccp_reset_code_str "reset-code-" " (invalid)" code =
      "reset-code-" ++ toString code ++ " (invalid)" := by
  have h0 : ¬(0 = code) := by omega
  have h1 : ¬(1 = code) := by omega
  have h2 : ¬(2 = code) := by omega
  have h3 : ¬(3 = code) := by omega
  have h4 : ¬(4 = code) := by omega
  have h5 : ¬(5 = code) := by omega
  have h6 : ¬(6 = code) := by omega
  have h7 : ¬(7 = code) := by omega
  have h8 : ¬(8 = code) := by omega
  have h9 : ¬(9 = code) := by omega
  have h10 : ¬(10 = code) := by omega
  have h11 : ¬(11 = code) := by omega
  simp [tok2str, tokFind, dccp_reset_code_str, h0, h1, h2, h3, h4, h5, h6, h7,
    h8, h9, h10, h11]

/-- C10: a Reset packet whose reset_code is not one of the 12 known values
    still decodes successfully: the code is rendered with the
    "reset-code-N (invalid)" fallback and the type extension returns
    normally (so the decode continues to the ack number and options). -/
theorem C10_reset_code (p : Pkt) (fixed0 code : Nat)
    (hlen12 : fixed0 + 12 ≤ p.len) (hcap : fixed0 + 12 ≤ p.caplen)
    (hcode : get1 p (fixed0 + 8) = Except.ok code) (hc : 12 ≤ code) :
    dccpTypeExt p 7 fixed0 =
      ([OutTok.lit "(code=",
        OutTok.lit ("reset-code-" ++ toString code ++ " (invalid)"),
        OutTok.lit ") "], Except.ok (fixed0 + 12)) := by
  have hne : ¬p.len < fixed0 + 12 := by omega
  simp [dccpTypeExt, mbind, liftE, tcheckAt, hcap, hcode, emits, mpure, hne,
    reset_code_fallback code hc]

theorem C10_reset_code_witness :
    dccpTypeExt (mkPkt [0, 0, 0, 0, 0, 0, 0, 0, 0, 0, 0, 0,
        0, 0, 0, 0, 0, 0, 0, 0, 99, 0, 0, 0] 24 24) 7 12 =
      ([OutTok.lit "(code=",
        OutTok.lit ("reset-code-" ++ toString 99 ++ " (invalid)"),
        OutTok.lit ") "], Except.ok (12 + 12)) :=
  C10_reset_code (mkPkt [0, 0, 0, 0, 0, 0, 0, 0, 0, 0, 0, 0,
      0, 0, 0, 0, 0, 0, 0, 0, 99, 0, 0, 0] 24 24) 12 99
    (by decide) (by decide) rfl (by decide)

/-- C5: in quiet mode, a well-formed packet of claimed length 40 with
    data_offset 3 (header length 12 bytes) renders, after the mandatory
    address/protocol prefix, exactly the single payload byte count 28, and
    ends in the quiet terminal state (options are never reached). -/
theorem C5_quiet_mode (env : Env) (p : Pkt)
    (hq : env.qflag = true) (hlen : p.len = 40) (hdoff : byteAt p 4 = 3)
    (hcap : 16 ≤ p.caplen) :
    dccpPrintCore env p =
      ([OutTok.lit env.srcAddr, OutTok.lit ".",
        OutTok.dec (byteAt p 0 * 256 + byteAt p 1), OutTok.lit " > ",
        OutTok.lit env.dstAddr, OutTok.lit ".",
        OutTok.dec (byteAt p 2 * 256 + byteAt p 3), OutTok.lit ": ",
        OutTok.lit "DCCP", OutTok.lit " ", OutTok.dec 28],
       Except.ok (Outcome.quiet 28)) := by
  have h8 : get1 p 8 = Except.ok (byteAt p 8) := by
    unfold get1
    rw [if_pos (by omega)]
  have e0 : getBE2 p 0 = Except.ok (byteAt p 0 * 256 + byteAt p 1) := by
    unfold getBE2
    rw [if_pos (by omega)]
  have e2 : getBE2 p 2 = Except.ok (byteAt p 2 * 256 + byteAt p 3) := by
    unfold getBE2
    rw [if_pos (by omega)]
  have e4 : get1 p 4 = Except.ok 3 := by
    unfold get1
    rw [if_pos (by omega), hdoff]
  have hb : dccp_basic_hdr_len (byteAt p 8) ≤ 16 := by
    unfold dccp_basic_hdr_len
    split <;> omega
  have htc : tcheckLen p (dccp_basic_hdr_len (byteAt p 8)) = Except.ok () := by
    unfold tcheckLen
    rw [if_pos (by omega)]
  have hfix : ¬(40 : Nat) < dccp_basic_hdr_len (byteAt p 8) := by omega
  simp [dccpPrintCore, mbind, liftE, h8, e0, e2, e4, htc, hfix, hq, emitAddrs,
    emit, emits, mpure, hlen]

/-- Quiet-mode environment for the C5 witness. -/
def envQ : Env := ⟨true, 0, "10.0.0.1", "10.0.0.2", fun _ => 0, fun _ _ => 0⟩

theorem C5_quiet_mode_witness :
    dccpPrintCore envQ (mkPkt [0, 7, 0, 9, 3, 0, 0, 0, 0, 0, 0, 0] 40 40) =
      ([OutTok.lit "10.0.0.1", OutTok.lit ".", OutTok.dec 7, OutTok.lit " > ",
        OutTok.lit "10.0.0.2", OutTok.lit ".", OutTok.dec 9, OutTok.lit ": ",
        OutTok.lit "DCCP", OutTok.lit " ", OutTok.dec 28],
       Except.ok (Outcome.quiet 28)) :=
  C5_quiet_mode envQ (mkPkt [0, 7, 0, 9, 3, 0, 0, 0, 0, 0, 0, 0] 40 40)
    rfl rfl rfl (by decide)

/-- Canonicalize the checksum verdict token; identity on every other
    token.  Two outputs equal after this erasure agree everywhere except in
    the checksum verdict. -/
def eraseCk (t : OutTok) : OutTok :=
  match t with
  | OutTok.cksumAnn a _ _ => OutTok.cksumAnn a true 0
  | t => t

lemma mbind_congr_f {α β : Type} (m : M α) (f g : α → M β)
    (hfg : ∀ a, (f a).1.map eraseCk = (g a).1.map eraseCk ∧ (f a).2 = (g a).2) :
    (mbind m f).1.map eraseCk = (mbind m g).1.map eraseCk ∧
      (mbind m f).2 = (mbind m g).2 := by
  unfold mbind
  cases hm : m.2 with
  | ok a => simp [List.map_append, (hfg a).1, (hfg a).2]
  | error e => simp

lemma mbind_congr_m {α β : Type} (m1 m2 : M α) (f : α → M β)
    (h1 : m1.1.map eraseCk = m2.1.map eraseCk) (h2 : m1.2 = m2.2) :
    (mbind m1 f).1.map eraseCk = (mbind m2 f).1.map eraseCk ∧
      (mbind m1 f).2 = (mbind m2 f).2 := by
  unfold mbind
  rw [h2]
  cases hm : m2.2 with
  | ok a => simp [List.map_append, h1]
  | error e => simp [h1]

/-- The checksum sub-block differs between two checksum oracles only in the
    verdict token: erased outputs and results coincide. -/
lemma verboseCkSum_congr (c1 c2 : Nat → Nat) (s1 s2 : Nat → Nat → Nat) (p : Pkt)
    (b5 : Nat) :
    (verboseCkSum c1 s1 p b5).1.map eraseCk = (verboseCkSum c2 s2 p b5).1.map eraseCk ∧
      (verboseCkSum c1 s1 p b5).2 = (verboseCkSum c2 s2 p b5).2 := by
  unfold verboseCkSum
  by_cases htt : p.len ≤ p.caplen
  · rw [if_pos htt, if_pos htt]
    apply mbind_congr_f
    intro dsum
    apply mbind_congr_f
    intro u
    apply mbind_congr_f
    intro doff
    split_ifs <;> simp [emit, eraseCk]
  · rw [if_neg htt, if_neg htt]
    exact ⟨rfl, rfl⟩

/-- So does the whole verbose block. -/
lemma verboseCk_congr (c1 c2 : Nat → Nat) (s1 s2 : Nat → Nat → Nat) (p : Pkt) :
    (verboseCk c1 s1 p).1.map eraseCk = (verboseCk c2 s2 p).1.map eraseCk ∧
      (verboseCk c1 s1 p).2 = (verboseCk c2 s2 p).2 := by
  unfold verboseCk
  apply mbind_congr_f
  intro b5
  apply mbind_congr_f
  intro u
  exact mbind_congr_m _ _ _ (verboseCkSum_congr c1 c2 s1 s2 p b5).1
    (verboseCkSum_congr c1 c2 s1 s2 p b5).2

/-- Under full capture the verbose checksum block always succeeds, whatever
    the checksum oracle returns. -/
lemma verboseCk_ok (ck : Nat → Nat) (sb : Nat → Nat → Nat) (p : Pkt)
    (h12 : 12 ≤ p.len) (hcap : p.len ≤ p.caplen) :
    (verboseCk ck sb p).2 = Except.ok () := by
  have h5 : get1 p 5 = Except.ok (byteAt p 5) := by
    unfold get1
    rw [if_pos (by omega)]
  have h6 : getBE2 p 6 = Except.ok (byteAt p 6 * 256 + byteAt p 7) := by
    unfold getBE2
    rw [if_pos (by omega)]
  have h4 : get1 p 4 = Except.ok (byteAt p 4) := by
    unfold get1
    rw [if_pos (by omega)]
  simp [verboseCk, verboseCkSum, mbind, liftE, emits, emit, mpure, h5, h6, h4, hcap]
  by_cases hck : ck (dccp_csum_coverage (DCCPH_CSCOV (byteAt p 5)) (byteAt p 4) p.len) = 0 <;>
    simp [hck]

/-- The whole decode, run under two different checksum oracles, emits the
    same output apart from the checksum verdict token and reaches the same
    result. -/
lemma dccpPrintCore_ck_congr (q : Bool) (v : Nat) (sa da : String)
    (c1 c2 : Nat → Nat) (s1 s2 : Nat → Nat → Nat) (p : Pkt) :
    (dccpPrintCore ⟨q, v, sa, da, c1, s1⟩ p).1.map eraseCk =
      (dccpPrintCore ⟨q, v, sa, da, c2, s2⟩ p).1.map eraseCk ∧
    (dccpPrintCore ⟨q, v, sa, da, c1, s1⟩ p).2 =
      (dccpPrintCore ⟨q, v, sa, da, c2, s2⟩ p).2 := by
  unfold dccpPrintCore
  dsimp only
  by_cases h12 : p.len < 12
  · rw [if_pos h12, if_pos h12]
    exact ⟨rfl, rfl⟩
  · rw [if_neg h12, if_neg h12]
    apply mbind_congr_f
    intro xtr
    by_cases hfx : p.len < dccp_basic_hdr_len xtr
    · rw [if_pos hfx, if_pos hfx]
      exact ⟨rfl, rfl⟩
    · rw [if_neg hfx, if_neg hfx]
      apply mbind_congr_f
      intro u
      apply mbind_congr_f
      intro sport
      apply mbind_congr_f
      intro dport
      apply mbind_congr_f
      intro doff
      apply mbind_congr_f
      intro u2
      apply mbind_congr_f
      intro u3
      by_cases hq : q = true
      · rw [if_pos hq, if_pos hq]
        exact ⟨rfl, rfl⟩
      · rw [if_neg hq, if_neg hq]
        by_cases hv : 1 ≤ v
        · rw [if_pos hv, if_pos hv]
          exact mbind_congr_m _ _ _ (verboseCk_congr c1 c2 s1 s2 p).1
            (verboseCk_congr c1 c2 s1 s2 p).2
        · rw [if_neg hv, if_neg hv]
          exact ⟨rfl, rfl⟩

/-- A non-verifying checksum is rendered as the advisory mismatch token. -/
lemma verboseCk_incorrect_mem (ck : Nat → Nat) (sb : Nat → Nat → Nat) (p : Pkt)
    (b5 dsum doff : Nat)
    (h5 : get1 p 5 = Except.ok b5) (h6 : getBE2 p 6 = Except.ok dsum)
    (h4 : get1 p 4 = Except.ok doff) (hcap : p.len ≤ p.caplen)
    (hne : ck (dccp_csum_coverage (DCCPH_CSCOV b5) doff p.len) ≠ 0) :
    OutTok.cksumAnn dsum false
        (sb dsum (ck (dccp_csum_coverage (DCCPH_CSCOV b5) doff p.len))) ∈
      (verboseCk ck sb p).1 := by
  simp [verboseCk, verboseCkSum, mbind, liftE, emits, emit, mpure, h5, h6, h4,
    hcap, hne]

/-- C6: a checksum mismatch never aborts decoding.  On a fully captured
    packet the verbose checksum block always succeeds; the decode under any
    two checksum oracles emits the same output apart from the checksum
    verdict token and reaches the same final result (so everything after
    the annotation proceeds exactly as if the checksum had been correct);
    and a non-verifying checksum is rendered as the advisory
    "(incorrect -> 0x____)" verdict token. -/
theorem C6_checksum_advisory :
    (∀ (ck : Nat → Nat) (sb : Nat → Nat → Nat) (p : Pkt),
        12 ≤ p.len → p.len ≤ p.caplen → (verboseCk ck sb p).2 = Except.ok ()) ∧
    (∀ (q : Bool) (v : Nat) (sa da : String) (c1 c2 : Nat → Nat)
        (s1 s2 : Nat → Nat → Nat) (p : Pkt),
        (dccpPrintCore ⟨q, v, sa, da, c1, s1⟩ p).1.map eraseCk =
          (dccpPrintCore ⟨q, v, sa, da, c2, s2⟩ p).1.map eraseCk ∧
        (dccpPrintCore ⟨q, v, sa, da, c1, s1⟩ p).2 =
          (dccpPrintCore ⟨q, v, sa, da, c2, s2⟩ p).2) ∧
    (∀ (ck : Nat → Nat) (sb : Nat → Nat → Nat) (p : Pkt) (b5 dsum doff : Nat),
        get1 p 5 = Except.ok b5 → getBE2 p 6 = Except.ok dsum →
        get1 p 4 = Except.ok doff → p.len ≤ p.caplen →
        ck (dccp_csum_coverage (DCCPH_CSCOV b5) doff p.len) ≠ 0 →
        OutTok.cksumAnn dsum false
            (sb dsum (ck (dccp_csum_coverage (DCCPH_CSCOV b5) doff p.len))) ∈
          (verboseCk ck sb p).1) :=
  ⟨fun ck sb p h12 hcap => verboseCk_ok ck sb p h12 hcap,
   fun q v sa da c1 c2 s1 s2 p => dccpPrintCore_ck_congr q v sa da c1 c2 s1 s2 p,
   fun ck sb p b5 dsum doff h5 h6 h4 hcap hne =>
     verboseCk_incorrect_mem ck sb p b5 dsum doff h5 h6 h4 hcap hne⟩

theorem C6_checksum_advisory_witness :
    (verboseCk (fun _ => 7) (fun _ _ => 4660)
        (mkPkt [0, 1, 0, 2, 3, 16, 171, 205, 0, 0, 0, 0] 12 12)).2 = Except.ok () ∧
    ((dccpPrintCore ⟨false, 2, "h1", "h2", fun _ => 7, fun _ _ => 4660⟩
        (mkPkt [0, 1, 0, 2, 3, 16, 171, 205, 0, 0, 0, 0] 12 12)).1.map eraseCk =
      (dccpPrintCore ⟨false, 2, "h1", "h2", fun _ => 0, fun _ _ => 0⟩
        (mkPkt [0, 1, 0, 2, 3, 16, 171, 205, 0, 0, 0, 0] 12 12)).1.map eraseCk ∧
     (dccpPrintCore ⟨false, 2, "h1", "h2", fun _ => 7, fun _ _ => 4660⟩
        (mkPkt [0, 1, 0, 2, 3, 16, 171, 205, 0, 0, 0, 0] 12 12)).2 =
      (dccpPrintCore ⟨false, 2, "h1", "h2", fun _ => 0, fun _ _ => 0⟩
        (mkPkt [0, 1, 0, 2, 3, 16, 171, 205, 0, 0, 0, 0] 12 12)).2) ∧
    OutTok.cksumAnn 43981 false 4660 ∈
      (verboseCk (fun _ => 7) (fun _ _ => 4660)
        (mkPkt [0, 1, 0, 2, 3, 16, 171, 205, 0, 0, 0, 0] 12 12)).1 :=
  ⟨C6_checksum_advisory.1 (fun _ => 7) (fun _ _ => 4660)
      (mkPkt [0, 1, 0, 2, 3, 16, 171, 205, 0, 0, 0, 0] 12 12) (by decide) (by decide),
   C6_checksum_advisory.2.1 false 2 "h1" "h2" (fun _ => 7) (fun _ => 0)
      (fun _ _ => 4660) (fun _ _ => 0)
      (mkPkt [0, 1, 0, 2, 3, 16, 171, 205, 0, 0, 0, 0] 12 12),
   C6_checksum_advisory.2.2 (fun _ => 7) (fun _ _ => 4660)
      (mkPkt [0, 1, 0, 2, 3, 16, 171, 205, 0, 0, 0, 0] 12 12) 16 43981 3
      rfl rfl rfl (by decide) (by decide)⟩

end Dccp
